import Mathlib

/-!
Shallow embedding of src/binance/web_sockets.py, the event-stream
subsystem of the binance.py repository: the abstract EventsDataStream
receive loop and the two concrete classes MarketEventsDataStream and
UserEventsDataStream.

Modelling conventions:
* Documents decoded from JSON frames are values of the Json type below.
* asyncio scheduling is an explicit pending-task list.  Calling an
  async method without awaiting it produces a coroutine value that is
  discarded unless it is passed to ensureFuture; asyncio.ensure_future
  raises TypeError when its argument is not awaitable (e.g. None).
* Timestamps are integer microseconds, the resolution of Python
  datetime; datetime.now().timestamp() readings are loop inputs.
* Fallible Python operations return Except PyErr; an exception raised
  mid-iteration leaves the mutations already made to the object in
  place, so the loop runner returns the state at the raise.
-/

/-- Decoded wire payload: the structured documents json.loads produces
(null, booleans, numbers, strings, ordered sequences, string-keyed
mappings).  Numbers are restricted to integers; no claim involves
fractional JSON numbers. -/
inductive Json where
  | null
  | bool (b : Bool)
  | num (n : Int)
  | str (s : String)
  | arr (elems : List Json)
  | obj (fields : List (String × Json))

/-- Python exception classes raised by the embedded operations. -/
inductive PyErr where
  | typeError
  | keyError
  | attributeError
  deriving DecidableEq

/-- Coroutine objects: calling an async def returns one of these; its
body runs only if it is awaited or scheduled via asyncio.ensure_future. -/
inductive Coro where
  | marketStart
  | userStart
  | heartbeat (listenKey : String)
  | wsClose
  deriving DecidableEq

/-- Python values relevant to the scheduling claims: None, or a
coroutine object. -/
inductive PyVal where
  | none
  | coroutine (c : Coro)
  deriving DecidableEq

/-- asyncio.ensure_future: appends a coroutine to the pending-task list;
raises TypeError when its argument is not awaitable, in particular on
None. -/
def ensureFuture (v : PyVal) (tasks : List Coro) : Except PyErr (List Coro) :=
  match v with
  | PyVal.coroutine c => Except.ok (tasks ++ [c])
  | PyVal.none => Except.error PyErr.typeError

/-- MarketEventsDataStream.connect: the body is the bare statement
self.start().  Calling the async method start only builds its coroutine
object; the body neither awaits it nor hands it to ensure_future, so
the coroutine is discarded and connect returns None.  The pending-task
list is unchanged. -/
def marketConnect (tasks : List Coro) : List Coro × PyVal :=
  let _unawaited := Coro.marketStart
  (tasks, PyVal.none)

/-- UserEventsDataStream.connect: the same bare self.start() body. -/
def userConnect (tasks : List Coro) : List Coro × PyVal :=
  let _unawaited := Coro.userStart
  (tasks, PyVal.none)

/-- Microseconds per second, the unit conversion of Python datetime
timestamps. -/
def usPerSecond : Nat := 1000000

/-- Seconds per day: timedelta stores days and seconds separately. -/
def secondsPerDay : Nat := 86400

/-- The seconds field of a nonnegative Python timedelta spanning the
given number of microseconds: whole seconds, reduced modulo one day
(the day part goes to the days field, which the code never reads). -/
def timedeltaSeconds (us : Nat) : Nat :=
  (us / usPerSecond) % secondsPerDay

/-- MarketEventsDataStream.connected.  Parameters are the values the
method reads: client.events.registered_streams, the last_msg_time
attribute (none when no frame has ever been received, in which case the
attribute read raises AttributeError), and the current clock reading,
both clock values in microseconds.  The code tests the truthiness of
len(registered_streams), then tests delta.seconds > 2 on
delta = datetime.now() - datetime.fromtimestamp(self.last_msg_time). -/
def marketConnected (registeredStreams : List String) (lastMsgTime : Option Nat)
    (nowUs : Nat) : Except PyErr Bool :=
  if registeredStreams.length ≠ 0 then
    match lastMsgTime with
    | Option.none => Except.error PyErr.attributeError
    | Option.some lastUs =>
      if timedeltaSeconds (nowUs - lastUs) > 2 then Except.ok false
      else Except.ok true
  else Except.ok true

/-- Transport handle: the aiohttp ClientWebSocketResponse surface the
embedded methods touch. -/
structure Transport where
  closed : Bool
  deriving DecidableEq

/-- MarketEventsDataStream.close: evaluates self.web_socket.close().
When the web_socket attribute was never assigned (no successful start),
the attribute read raises AttributeError.  Otherwise close() is an
async method of the transport: the call builds a coroutine that this
sync method discards, and the method returns None. -/
def marketClose (webSocket : Option Transport) : Except PyErr PyVal :=
  match webSocket with
  | Option.none => Except.error PyErr.attributeError
  | Option.some _ =>
    let _unawaited := Coro.wsClose
    Except.ok PyVal.none

/-- UserEventsDataStream declares no close method, so stream.close()
fails attribute lookup on the instance. -/
def userClose : Except PyErr PyVal :=
  Except.error PyErr.attributeError

/-- The web_socket attribute of a freshly constructed
UserEventsDataStream: the class only annotates it; nothing assigns it
before the first successful start(). -/
def freshUserWebSocket : Option Transport := Option.none

/-- UserEventsDataStream.connected: not self.web_socket.closed.  Reading
the attribute before the first successful start raises AttributeError. -/
def userConnected (webSocket : Option Transport) : Except PyErr Bool :=
  match webSocket with
  | Option.none => Except.error PyErr.attributeError
  | Option.some t => Except.ok (!t.closed)

/-- Default keepalive period of UserEventsDataStream._heartbeat:
interval=60 * 30 seconds. -/
def heartbeatIntervalDefault : Nat := 60 * 30

/-- UserEventsDataStream._heartbeat observed over the first intervals of
its unbounded while True loop.  The k-th list entry is the outcome of
the k-th keep_alive_listen_key call (true: returns, false: raises).
Each interval the task sleeps and then invokes renewal exactly once;
the loop body has no exception handling, so a raising renewal
terminates the task and no later interval performs an invocation.  The
result counts renewal invocations over the given intervals. -/
def heartbeatInvocations : List Bool → Nat
  | [] => 0
  | ok :: rest => 1 + (if ok then heartbeatInvocations rest else 0)

/-- Python truthiness of the optional proxy setting: None and the empty
string are falsy, any other string truthy. -/
def truthyStr : Option String → Bool
  | Option.some s => !s.isEmpty
  | Option.none => false

/-- One session.ws_connect call: the url, and the proxy keyword
argument.  proxyArg = none means the keyword was not passed at all;
proxyArg = some p means proxy=p was passed. -/
structure WsConnectCall where
  url : String
  proxyArg : Option (Option String)
  deriving DecidableEq

/-- Observable effects of one run of UserEventsDataStream.start up to
entering the receive loop: whether the listen key was requested from
client.create_listen_key, the ws_connect call issued, the pending-task
list after ensure_future(self._heartbeat(listen_key)), and whether
_handle_messages is then awaited. -/
structure UserStartRun where
  listenKeyRequested : Bool
  call : WsConnectCall
  scheduled : List Coro
  entersReceiveLoop : Bool
  deriving DecidableEq

/-- UserEventsDataStream.start as a function of the configured proxy,
the listen key returned by the token provider, the endpoint, and the
pending-task list.  Note the branch bodies of `if self.client.proxy:`
in the source: the truthy branch calls ws_connect WITHOUT a proxy
argument, while the falsy branch passes proxy=self.client.proxy. -/
def runUserStart (endpoint : String) (proxy : Option String) (listenKey : String)
    (tasks : List Coro) : UserStartRun :=
  if truthyStr proxy then
    { listenKeyRequested := true
      call := { url := endpoint ++ ("/ws/") ++ listenKey, proxyArg := Option.none }
      scheduled := tasks ++ [Coro.heartbeat listenKey]
      entersReceiveLoop := true }
  else
    { listenKeyRequested := true
      call := { url := endpoint ++ ("/ws/") ++ listenKey, proxyArg := Option.some proxy }
      scheduled := tasks ++ [Coro.heartbeat listenKey]
      entersReceiveLoop := true }

/-- Diagnostic output lines of web_sockets.py: the two logging.error
calls of _handle_messages troubleshooting closed and errored frames,
and the colored print emitted for a frame without a stream key. -/
inductive OutMsg where
  | logClosedError
  | logWsError
  | printUnroutable (content : Json)

/-- Dispatch and console effects accumulated by a stream object: the
documents handed to the dispatch sink (client.events.wrap_event(doc)
.fire()) in order, and the diagnostic lines emitted. -/
structure Effects where
  sink : List Json
  out : List OutMsg

/-- aiohttp websocket frame types the receive loop branches on. -/
inductive WSMsgType where
  | TEXT
  | CLOSED
  | CLOSE
  | ERROR
  deriving DecidableEq

/-- One received frame: its type and its payload.  The payload is
represented by the document it decodes to; Option.none stands for a
payload that is not JSON text (None on CLOSED frames, the exception
object on ERROR frames), on which json.loads raises TypeError. -/
structure WSMsg where
  type : WSMsgType
  data : Option Json

/-- json.loads applied to msg.data, under the payload representation
above. -/
def jsonLoads : Option Json → Except PyErr Json
  | Option.some j => Except.ok j
  | Option.none => Except.error PyErr.typeError

/-- State of one stream object while the receive loop of
EventsDataStream._handle_messages runs, together with the observable
traces the claims mention.  tsTrace is a ghost trace recording each
executed write to self.last_msg_time (one entry per assignment, holding
the written value); handled records the successive arguments passed to
self._handle_event. -/
structure LoopState where
  lastMsgTime : Option Nat
  sched : List Coro
  handled : List Json
  eff : Effects
  tsTrace : List Nat

/-- A stream object before any frame was received: last_msg_time unset
(the class only annotates the attribute), no pending tasks, nothing
dispatched or printed. -/
def initialLoopState : LoopState :=
  { lastMsgTime := Option.none, sched := [], handled := [],
    eff := { sink := [], out := [] }, tsTrace := [] }

/-- The msg.type branch of _handle_messages: CLOSED and CLOSE hit the
first logging.error, ERROR the second, TEXT neither. -/
def receiveLogMsg : WSMsgType → Option OutMsg
  | WSMsgType.CLOSED => Option.some OutMsg.logClosedError
  | WSMsgType.CLOSE => Option.some OutMsg.logClosedError
  | WSMsgType.ERROR => Option.some OutMsg.logWsError
  | WSMsgType.TEXT => Option.none

/-- asyncio.ensure_future(self.connect()) with the given embedding of
the connect method: first evaluate connect (it may touch the task list
and returns a Python value), then ensure_future that value.  Returns
the resulting task list and the raised exception, if any. -/
def scheduleReconnect (connect : List Coro → List Coro × PyVal)
    (tasks : List Coro) : List Coro × Option PyErr :=
  let p := connect tasks
  match ensureFuture p.2 p.1 with
  | Except.ok tasks2 => (tasks2, Option.none)
  | Except.error e => (p.1, Option.some e)

/-- Tail of one _handle_messages iteration:
self._handle_event(json.loads(msg.data)).  A raising json.loads aborts
the iteration there; otherwise the decoded document is recorded as
handled and the effects of the per-class _handle_event are appended. -/
def afterBranch (handler : Json → Effects × Option PyErr) (st : LoopState)
    (msgData : Option Json) : LoopState × Option PyErr :=
  match jsonLoads msgData with
  | Except.error e => (st, Option.some e)
  | Except.ok j =>
    let r := handler j
    ({ st with handled := st.handled ++ [j],
               eff := { sink := st.eff.sink ++ r.1.sink,
                        out := st.eff.out ++ r.1.out } }, r.2)

/-- Body of the CLOSED/CLOSE/ERROR branch: logging.error, then
asyncio.ensure_future(self.connect()); if ensure_future raises, the
exception propagates at once, otherwise the iteration falls through to
the decode-and-handle tail like every other frame. -/
def stepBranch (connect : List Coro → List Coro × PyVal)
    (handler : Json → Effects × Option PyErr) (st : LoopState)
    (logEntry : OutMsg) (msgData : Option Json) : LoopState × Option PyErr :=
  let st2 : LoopState :=
    { st with eff := { sink := st.eff.sink, out := st.eff.out ++ [logEntry] } }
  let p := scheduleReconnect connect st2.sched
  match p.2 with
  | Option.some e => ({ st2 with sched := p.1 }, Option.some e)
  | Option.none => afterBranch handler { st2 with sched := p.1 } msgData

/-- One iteration of the while True loop of
EventsDataStream._handle_messages: receive a frame (given, with its
receive-time clock reading), assign self.last_msg_time, branch on
msg.type, then hand json.loads(msg.data) to self._handle_event. -/
def handleMessagesStep (connect : List Coro → List Coro × PyVal)
    (handler : Json → Effects × Option PyErr) (st : LoopState) (now : Nat)
    (msg : WSMsg) : LoopState × Option PyErr :=
  let st1 : LoopState :=
    { st with lastMsgTime := Option.some now, tsTrace := st.tsTrace ++ [now] }
  match receiveLogMsg msg.type with
  | Option.some logEntry => stepBranch connect handler st1 logEntry msg.data
  | Option.none => afterBranch handler st1 msg.data

/-- The receive loop over the first frames of one epoch: the k-th list
entry is the receive-time clock reading (microseconds) and the frame of
the k-th iteration.  A raised exception ends the run with the state the
object had at the raise; otherwise the loop would keep waiting, which is
modelled by returning after the listed frames with no exception. -/
def handleMessages (connect : List Coro → List Coro × PyVal)
    (handler : Json → Effects × Option PyErr) :
    LoopState → List (Nat × WSMsg) → LoopState × Option PyErr
  | st, [] => (st, Option.none)
  | st, (t, m) :: rest =>
    let r := handleMessagesStep connect handler st t m
    match r.2 with
    | Option.none => handleMessages connect handler r.1 rest
    | Option.some e => (r.1, Option.some e)

/-- A sequence of ordinary data frames: TEXT frames whose payloads
decode to the given documents, at the given receive times. -/
def textMsgs (frames : List (Nat × Json)) : List (Nat × WSMsg) :=
  frames.map (fun p => (p.1, { type := WSMsgType.TEXT, data := Option.some p.2 }))

/-- UserEventsDataStream._handle_event: wrap_event(content).fire(), one
dispatch-sink invocation with the document itself. -/
def userHandleEvent (content : Json) : Effects × Option PyErr :=
  ({ sink := [content], out := [] }, Option.none)

/-- Lookup of a string key in a decoded mapping, preserving Python dict
semantics (first matching key; keys are unique in decoded JSON). -/
def lookupKey : List (String × Json) → String → Option Json
  | [], _ => Option.none
  | (k, w) :: rest, key => if k = key then Option.some w else lookupKey rest key

/-- Python dict item assignment d[key] = v: replaces the value in place
when the key exists (position preserved), otherwise appends the new
binding at the end (insertion order). -/
def setKey : List (String × Json) → String → Json → List (String × Json)
  | [], key, v => [(key, v)]
  | (k, w) :: rest, key, v =>
    if k = key then (k, v) :: rest else (k, w) :: setKey rest key v

/-- Python membership test `key in content` for a string key: key lookup
on a mapping, element equality on a sequence (a string equals only an
equal string), substring test on a string; TypeError on the remaining
non-iterable values. -/
def pyContains (container : Json) (key : String) : Except PyErr Bool :=
  match container with
  | Json.obj fields => Except.ok (lookupKey fields key).isSome
  | Json.arr elems =>
    Except.ok (elems.any (fun x =>
      match x with
      | Json.str s2 => s2 == key
      | _ => false))
  | Json.str s => Except.ok ((s.splitOn key).length != 1)
  | _ => Except.error PyErr.typeError

/-- Python subscript read content[key] for a string key: KeyError when a
mapping lacks the key, TypeError on every non-mapping (string and list
subscripts must be integers). -/
def pyGetItem (container : Json) (key : String) : Except PyErr Json :=
  match container with
  | Json.obj fields =>
    match lookupKey fields key with
    | Option.some v => Except.ok v
    | Option.none => Except.error PyErr.keyError
  | _ => Except.error PyErr.typeError

/-- Python subscript assignment content[key] = v: updates a mapping;
TypeError on every non-mapping. -/
def pySetItem (container : Json) (key : String) (v : Json) : Except PyErr Json :=
  match container with
  | Json.obj fields => Except.ok (Json.obj (setKey fields key v))
  | _ => Except.error PyErr.typeError

/-- The for loop of MarketEventsDataStream._handle_event over a data
sequence: each element gets event_content["stream"] = stream_name and
is fired at the dispatch sink, in order; a non-mapping element raises
TypeError after the earlier elements have already been fired. -/
def fireAll (streamName : Json) : List Json → List Json × Option PyErr
  | [] => ([], Option.none)
  | ec :: rest =>
    match pySetItem ec ("stream") streamName with
    | Except.ok ec2 =>
      let r := fireAll streamName rest
      (ec2 :: r.1, r.2)
    | Except.error e => ([], Option.some e)

/-- MarketEventsDataStream._handle_event: if "stream" is in the decoded
content, read the topic label and the data payload, then fire each
element of a list payload (annotated with the label) or the single
payload (annotated) at the dispatch sink; otherwise print the content
as an event without stream. -/
def marketHandleEvent (content : Json) : Effects × Option PyErr :=
  match pyContains content ("stream") with
  | Except.error e => ({ sink := [], out := [] }, Option.some e)
  | Except.ok false => ({ sink := [], out := [OutMsg.printUnroutable content] }, Option.none)
  | Except.ok true =>
    match pyGetItem content ("stream") with
    | Except.error e => ({ sink := [], out := [] }, Option.some e)
    | Except.ok streamName =>
      match pyGetItem content ("data") with
      | Except.error e => ({ sink := [], out := [] }, Option.some e)
      | Except.ok dataVal =>
        match dataVal with
        | Json.arr elems =>
          let r := fireAll streamName elems
          ({ sink := r.1, out := [] }, r.2)
        | d =>
          match pySetItem d ("stream") streamName with
          | Except.ok c2 => ({ sink := [c2], out := [] }, Option.none)
          | Except.error e => ({ sink := [], out := [] }, Option.some e)

/-- Tests whether a decoded value is a mapping (a document). -/
def isObj : Json → Bool
  | Json.obj _ => true
  | _ => false

/-- Annotation with the topic label as the claim describes it: on a
document, set its "stream" key to the label; total on Json for
convenience of statement (the claims only apply it to documents, where
it agrees with pySetItem). -/
def annotateStream (streamName : Json) : Json → Json
  | Json.obj fields => Json.obj (setKey fields ("stream") streamName)
  | j => j

/-- Helper: prepending an element to a list shifts its last-or default. -/
theorem getLastOrCons :
    ∀ (l : List Nat) (a : Nat) (b : Option Nat),
      (List.getLast? (a :: l)).or b = (List.getLast? l).or (Option.some a) := by
  intro l
  induction l with
  | nil => intro a b; rfl
  | cons x xs ih =>
    intro a b
    rw [List.getLast?_cons_cons, ih x b, ih x (Option.some a)]

/-- Helper: on a list of documents, the fire loop dispatches every
element annotated with the topic label, in order, without raising. -/
theorem fireAll_objs (streamName : Json) :
    ∀ elems : List Json, elems.all isObj = true →
      fireAll streamName elems = (elems.map (annotateStream streamName), Option.none) := by
  intro elems
  induction elems with
  | nil => intro _; rfl
  | cons e rest ih =>
    intro h
    rw [List.all_cons, Bool.and_eq_true] at h
    obtain ⟨he, hrest⟩ := h
    cases e with
    | obj fields => simp [fireAll, pySetItem, annotateStream, ih hrest]
    | null => simp [isObj] at he
    | bool b => simp [isObj] at he
    | num n => simp [isObj] at he
    | str s2 => simp [isObj] at he
    | arr xs => simp [isObj] at he

/-- Helper: the decode-and-handle tail never touches last_msg_time or
its write trace. -/
theorem afterBranch_fields (handler : Json → Effects × Option PyErr)
    (st : LoopState) (d : Option Json) :
    (afterBranch handler st d).1.tsTrace = st.tsTrace ∧
    (afterBranch handler st d).1.lastMsgTime = st.lastMsgTime := by
  cases d <;> simp [afterBranch, jsonLoads]

/-- Helper: the CLOSED/CLOSE/ERROR branch body never touches
last_msg_time or its write trace. -/
theorem stepBranch_fields (connect : List Coro → List Coro × PyVal)
    (handler : Json → Effects × Option PyErr) (st : LoopState)
    (logEntry : OutMsg) (d : Option Json) :
    (stepBranch connect handler st logEntry d).1.tsTrace = st.tsTrace ∧
    (stepBranch connect handler st logEntry d).1.lastMsgTime = st.lastMsgTime := by
  unfold stepBranch
  dsimp only
  split
  · exact ⟨rfl, rfl⟩
  · constructor
    · exact (afterBranch_fields handler _ d).1
    · exact (afterBranch_fields handler _ d).2

/-- Helper: every loop iteration, whatever the frame type and outcome,
performs exactly one write to last_msg_time, with the receive-time
clock value, before the frame is decoded or handled. -/
theorem handleMessagesStep_timestamp (connect : List Coro → List Coro × PyVal)
    (handler : Json → Effects × Option PyErr) (st : LoopState) (now : Nat)
    (msg : WSMsg) :
    (handleMessagesStep connect handler st now msg).1.tsTrace = st.tsTrace ++ [now] ∧
    (handleMessagesStep connect handler st now msg).1.lastMsgTime = Option.some now := by
  unfold handleMessagesStep
  dsimp only
  cases hmt : receiveLogMsg msg.type with
  | none =>
    constructor
    · exact (afterBranch_fields handler _ msg.data).1
    · exact (afterBranch_fields handler _ msg.data).2
  | some logEntry =>
    constructor
    · exact (stepBranch_fields connect handler _ logEntry msg.data).1
    · exact (stepBranch_fields connect handler _ logEntry msg.data).2

/-- Helper: unfolding equation of the loop runner on a cons cell. -/
theorem handleMessages_cons (connect : List Coro → List Coro × PyVal)
    (handler : Json → Effects × Option PyErr) (st : LoopState) (t : Nat)
    (m : WSMsg) (rest : List (Nat × WSMsg)) :
    handleMessages connect handler st ((t, m) :: rest) =
      (match (handleMessagesStep connect handler st t m).2 with
       | Option.none =>
         handleMessages connect handler (handleMessagesStep connect handler st t m).1 rest
       | Option.some e =>
         ((handleMessagesStep connect handler st t m).1, Option.some e)) := rfl

/-- Helper: characterization of the receive loop on a run of ordinary
decodable data frames whose handler does not raise: no exception, the
timestamp trace extends by exactly the receive times, the task list is
untouched, the decoded documents are handled in arrival order and the
per-frame handler effects are appended in arrival order. -/
theorem handleMessages_text (connect : List Coro → List Coro × PyVal)
    (handler : Json → Effects × Option PyErr) :
    ∀ (frames : List (Nat × Json)) (st : LoopState),
      (∀ p ∈ frames, (handler p.2).2 = Option.none) →
      handleMessages connect handler st (textMsgs frames) =
        ({ lastMsgTime := (List.getLast? (frames.map Prod.fst)).or st.lastMsgTime,
           sched := st.sched,
           handled := st.handled ++ frames.map Prod.snd,
           eff := { sink := st.eff.sink ++ (frames.map (fun p => (handler p.2).1.sink)).flatten,
                    out := st.eff.out ++ (frames.map (fun p => (handler p.2).1.out)).flatten },
           tsTrace := st.tsTrace ++ frames.map Prod.fst }, Option.none) := by
  intro frames
  induction frames with
  | nil =>
    intro st _
    simp [textMsgs, handleMessages]
  | cons p rest ih =>
    intro st hok
    obtain ⟨t, j⟩ := p
    have hj : (handler j).2 = Option.none := hok (t, j) (List.mem_cons_self _ _)
    have hrest : ∀ q ∈ rest, (handler q.2).2 = Option.none :=
      fun q hq => hok q (List.mem_cons_of_mem _ hq)
    have hstep : handleMessagesStep connect handler st t
        { type := WSMsgType.TEXT, data := Option.some j } =
        ({ st with lastMsgTime := Option.some t,
                   tsTrace := st.tsTrace ++ [t],
                   handled := st.handled ++ [j],
                   eff := { sink := st.eff.sink ++ (handler j).1.sink,
                            out := st.eff.out ++ (handler j).1.out } },
         (handler j).2) := rfl
    rw [hj] at hstep
    have hcons : textMsgs ((t, j) :: rest) =
        (t, { type := WSMsgType.TEXT, data := Option.some j }) :: textMsgs rest := rfl
    rw [hcons, handleMessages_cons, hstep]
    dsimp only
    rw [ih _ hrest]
    simp [List.append_assoc, getLastOrCons]

/-- C1: the claim says connect() returns only once a receive loop for
the new epoch is pending or running.  In the code, connect() only
creates the start() coroutine and discards it: the pending-task list is
unchanged by either connect (in particular still empty for a fresh
stream) and the call returns None, so no receive loop is pending or
running after connect() returns.  This supports the code_bug verdict. -/
theorem c1_connect_schedules_nothing :
    (∀ tasks : List Coro,
        marketConnect tasks = (tasks, PyVal.none) ∧
        userConnect tasks = (tasks, PyVal.none)) ∧
    (marketConnect []).1 = [] ∧ (userConnect []).1 = [] :=
  ⟨fun _ => ⟨rfl, rfl⟩, rfl, rfl⟩

/-- C4 counterexample: with one registered topic and an elapsed gap of
2.5 seconds (2500000 microseconds, more than the 2 seconds the claim
allows), connected() still returns true, because timedelta.seconds
truncates to whole seconds (here 2, which is not greater than 2).  The
claim as stated (false whenever more than 2 seconds have elapsed) is
therefore wrong at this input. -/
theorem c4_counterexample :
    marketConnected [("btcusdt@trade")] (Option.some 0) 2500000 = Except.ok true ∧
    2 * usPerSecond < 2500000 - 0 := by
  constructor
  · rfl
  · decide

/-- C4 amended: connected() compares only the seconds field of the
elapsed timedelta, i.e. the elapsed whole seconds reduced modulo one
day.  With at least one registered topic the probe returns false
exactly when that field exceeds 2, and true otherwise; with zero
registered topics it always returns true. -/
theorem c4_amended_connected :
    ∀ (streams : List String) (lastUs nowUs : Nat), lastUs ≤ nowUs →
      (marketConnected streams (Option.some lastUs) nowUs = Except.ok false ↔
        streams ≠ [] ∧ 2 < timedeltaSeconds (nowUs - lastUs)) ∧
      (marketConnected streams (Option.some lastUs) nowUs = Except.ok true ↔
        streams = [] ∨ timedeltaSeconds (nowUs - lastUs) ≤ 2) := by
  intro streams lastUs nowUs _
  by_cases hs : streams.length ≠ 0
  · have hne : streams ≠ [] := by
      intro h
      exact hs (by simp [h])
    have hred : marketConnected streams (Option.some lastUs) nowUs =
        if timedeltaSeconds (nowUs - lastUs) > 2 then Except.ok false
        else Except.ok true := by
      unfold marketConnected
      rw [if_pos hs]
    rw [hred]
    by_cases ht : 2 < timedeltaSeconds (nowUs - lastUs)
    · rw [if_pos ht]
      constructor
      · simp [hne, ht]
      · simp [hne, Nat.not_le.mpr ht]
    · rw [if_neg ht]
      constructor
      · simp [ht]
      · simp [Nat.not_lt.mp ht]
  · have hempty : streams = [] := List.length_eq_zero.mp (not_not.mp hs)
    have hred : marketConnected streams (Option.some lastUs) nowUs = Except.ok true := by
      unfold marketConnected
      rw [if_neg hs]
    rw [hred]
    simp [hempty]

/-- C4 witness: four elapsed seconds with one registered topic makes
the probe report disconnected. -/
theorem c4_witness :
    marketConnected [("btcusdt@trade")] (Option.some 0) 4000000 = Except.ok false :=
  ((c4_amended_connected [("btcusdt@trade")] 0 4000000 (by decide)).1).mpr
    (by constructor
        · decide
        · decide)

/-- C6 counterexample: if the first renewal raises, only one renewal
invocation ever happens over two elapsed intervals; the claim (failure
does not stop the schedule, renewal attempted on every interval)
demands two. -/
theorem c6_counterexample :
    heartbeatInvocations [false, true] = 1 ∧
    heartbeatInvocations [false, true] ≠ [false, true].length := by
  constructor
  · rfl
  · decide

/-- C6 amended: the keepalive invokes renewal once per fixed interval
(default 60 * 30 = 1800 seconds) indefinitely as long as every
invocation succeeds; the first raising invocation terminates the task,
so after a failure no renewal is attempted on any subsequent interval. -/
theorem c6_amended_heartbeat :
    heartbeatIntervalDefault = 1800 ∧
    (∀ outcomes : List Bool, (∀ b ∈ outcomes, b = true) →
        heartbeatInvocations outcomes = outcomes.length) ∧
    (∀ pre post : List Bool,
        heartbeatInvocations (pre ++ false :: post) =
          heartbeatInvocations (pre ++ [false])) := by
  refine ⟨rfl, ?_, ?_⟩
  · intro outcomes h
    induction outcomes with
    | nil => rfl
    | cons b rest ih =>
      have hb : b = true := h b (List.mem_cons_self b rest)
      have hrest : ∀ x ∈ rest, x = true := fun x hx => h x (List.mem_cons_of_mem b hx)
      simp [heartbeatInvocations, hb, ih hrest]
      omega
  · intro pre post
    induction pre with
    | nil => simp [heartbeatInvocations]
    | cons b rest ih => simp [heartbeatInvocations, ih]

/-- C6 witness: three intervals of succeeding renewals give three
renewal invocations. -/
theorem c6_witness : heartbeatInvocations [true, true, true] = 3 :=
  c6_amended_heartbeat.2.1 [true, true, true] (by decide)

/-- C9 counterexample: on a MarketEventsDataStream with no active
transport the very first close() call already raises AttributeError
(web_socket is only a class annotation, never assigned before a
successful start), so calling close() twice in succession does error. -/
theorem c9_counterexample :
    marketClose Option.none = Except.error PyErr.attributeError := rfl

/-- C9 amended: on a stream with no active transport handle every
close() call raises AttributeError, identically on the first and on the
second call of a pair: MarketEventsDataStream.close reads the unset
web_socket attribute and UserEventsDataStream has no close method at
all.  Once a transport handle is set, MarketEventsDataStream.close
returns None without raising (the close coroutine it builds is
discarded). -/
theorem c9_amended_close :
    marketClose Option.none = Except.error PyErr.attributeError ∧
    userClose = Except.error PyErr.attributeError ∧
    (∀ t : Transport, marketClose (Option.some t) = Except.ok PyVal.none) :=
  ⟨rfl, rfl, fun _ => rfl⟩

/-- C5: with a proxy configured (a truthy client.proxy) start() requests
the token, builds endpoint/ws/token and schedules the keepalive
coroutine for this listen key, but issues ws_connect with NO proxy
argument: the connection is direct, not through the proxy.  With no
proxy configured it passes proxy=None.  The proxy branches are swapped
relative to the claim (and to MarketEventsDataStream.start), which
supports the code_bug verdict. -/
theorem c5_proxy_branches_swapped :
    (runUserStart ("wss://example") (Option.some ("http://proxy:8080")) ("LK") []).call.proxyArg
        = Option.none ∧
    (runUserStart ("wss://example") (Option.some ("http://proxy:8080")) ("LK") []).call.url
        = ("wss://example/ws/LK") ∧
    (runUserStart ("wss://example") (Option.some ("http://proxy:8080")) ("LK") []).listenKeyRequested
        = true ∧
    (runUserStart ("wss://example") (Option.some ("http://proxy:8080")) ("LK") []).scheduled
        = [Coro.heartbeat ("LK")] ∧
    (runUserStart ("wss://example") (Option.some ("http://proxy:8080")) ("LK") []).entersReceiveLoop
        = true ∧
    (runUserStart ("wss://example") Option.none ("LK") []).call.proxyArg
        = Option.some Option.none := by
  refine ⟨?_, ?_, ?_, ?_, ?_, ?_⟩ <;> rfl

/-- C10: the connectivity probes on a never-connected stream raise
AttributeError instead of returning a boolean: a fresh stream has
last_msg_time unset, so MarketEventsDataStream.connected raises on any
registered-topics list that is not empty (it reads the attribute only
then), and a fresh UserEventsDataStream has web_socket unset, so its
connected raises on the attribute read. -/
theorem c10_probe_unconnected :
    initialLoopState.lastMsgTime = Option.none ∧
    (∀ (streams : List String) (nowUs : Nat), streams ≠ [] →
        marketConnected streams initialLoopState.lastMsgTime nowUs =
          Except.error PyErr.attributeError) ∧
    freshUserWebSocket = Option.none ∧
    userConnected freshUserWebSocket = Except.error PyErr.attributeError := by
  refine ⟨rfl, ?_, rfl, rfl⟩
  intro streams nowUs hne
  have hlen : streams.length ≠ 0 := by
    intro h
    exact hne (List.length_eq_zero.mp h)
  unfold marketConnected
  rw [if_pos hlen]
  rfl

/-- C10 witness: one registered topic, never connected: the market
probe raises AttributeError. -/
theorem c10_witness :
    marketConnected [("btcusdt@trade")] initialLoopState.lastMsgTime 0 =
      Except.error PyErr.attributeError :=
  c10_probe_unconnected.2.1 [("btcusdt@trade")] 0 (by decide)

/-- C8: a decoded document without a "stream" key produces zero
dispatch-sink invocations, exactly one diagnostic line (the colored
print of the unroutable content), and no exception: the frame is
dropped non-fatally. -/
theorem c8_unroutable_dropped :
    ∀ kvs : List (String × Json),
      lookupKey kvs ("stream") = Option.none →
      marketHandleEvent (Json.obj kvs) =
        ({ sink := [], out := [OutMsg.printUnroutable (Json.obj kvs)] }, Option.none) := by
  intro kvs h
  simp [marketHandleEvent, pyContains, h]

/-- C8 witness: a concrete document without a stream key is dropped
with one diagnostic line and no sink invocation. -/
theorem c8_witness :
    marketHandleEvent (Json.obj [(("e"), Json.str ("trade"))]) =
      ({ sink := [],
         out := [OutMsg.printUnroutable (Json.obj [(("e"), Json.str ("trade"))])] },
       Option.none) :=
  c8_unroutable_dropped [(("e"), Json.str ("trade"))] (by rfl)

/-- C3: on a decoded document with stream label s and a data payload,
the dispatch sink is invoked once per element, in order, each element
annotated with the label, when the payload is a sequence of documents;
and exactly once with the annotated document when the payload is a
single document. -/
theorem c3_market_demux :
    (∀ (kvs : List (String × Json)) (s : Json) (elems : List Json),
        lookupKey kvs ("stream") = Option.some s →
        lookupKey kvs ("data") = Option.some (Json.arr elems) →
        elems.all isObj = true →
        marketHandleEvent (Json.obj kvs) =
          ({ sink := elems.map (annotateStream s), out := [] }, Option.none)) ∧
    (∀ (kvs : List (String × Json)) (s : Json) (dfields : List (String × Json)),
        lookupKey kvs ("stream") = Option.some s →
        lookupKey kvs ("data") = Option.some (Json.obj dfields) →
        marketHandleEvent (Json.obj kvs) =
          ({ sink := [Json.obj (setKey dfields ("stream") s)], out := [] },
           Option.none)) := by
  constructor
  · intro kvs s elems hs hd hobjs
    simp [marketHandleEvent, pyContains, pyGetItem, hs, hd, fireAll_objs s elems hobjs]
  · intro kvs s dfields hs hd
    simp [marketHandleEvent, pyContains, pyGetItem, pySetItem, hs, hd]

/-- C3 witness: the two examples of the spec.  A frame with a two
element data sequence yields two sink invocations, in order, each
tagged with the label (appended, since the elements had no stream key);
a frame with a single data document yields one tagged invocation. -/
theorem c3_witness :
    marketHandleEvent (Json.obj [(("stream"), Json.str ("X")),
        (("data"), Json.arr [Json.obj [(("a"), Json.num 1)],
                             Json.obj [(("a"), Json.num 2)]])]) =
      ({ sink := [Json.obj [(("a"), Json.num 1), (("stream"), Json.str ("X"))],
                  Json.obj [(("a"), Json.num 2), (("stream"), Json.str ("X"))]],
         out := [] }, Option.none) ∧
    marketHandleEvent (Json.obj [(("stream"), Json.str ("btcusdt@trade")),
        (("data"), Json.obj [(("p"), Json.num 100)])]) =
      ({ sink := [Json.obj [(("p"), Json.num 100),
                            (("stream"), Json.str ("btcusdt@trade"))]],
         out := [] }, Option.none) := by
  constructor
  · exact c3_market_demux.1
      [(("stream"), Json.str ("X")),
       (("data"), Json.arr [Json.obj [(("a"), Json.num 1)],
                            Json.obj [(("a"), Json.num 2)]])]
      (Json.str ("X"))
      [Json.obj [(("a"), Json.num 1)], Json.obj [(("a"), Json.num 2)]]
      (by rfl) (by rfl) (by rfl)
  · exact c3_market_demux.2
      [(("stream"), Json.str ("btcusdt@trade")),
       (("data"), Json.obj [(("p"), Json.num 100)])]
      (Json.str ("btcusdt@trade"))
      [(("p"), Json.num 100)]
      (by rfl) (by rfl)

/-- C2: over any sequence of decodable data frames of one epoch whose
per-frame handler does not raise, the receive loop run from a fresh
stream raises nothing, hands the decoded documents to _handle_event in
arrival order, appends the per-frame dispatch-sink outputs in arrival
order, leaves the task list empty, and writes the liveness timestamp
exactly once per frame with that frame receive time (the write trace
equals the receive-time list and the final last_msg_time is its last
entry); when the receive clock is monotone the write trace is monotone;
and structurally every iteration, for any frame type and any outcome,
performs exactly one timestamp write, with the receive time, before the
frame is decoded or handled. -/
theorem c2_receive_loop (connect : List Coro → List Coro × PyVal)
    (handler : Json → Effects × Option PyErr) (frames : List (Nat × Json))
    (hok : ∀ p ∈ frames, (handler p.2).2 = Option.none)
    (hclock : List.Chain' (fun a b => a ≤ b) (frames.map Prod.fst)) :
    (handleMessages connect handler initialLoopState (textMsgs frames) =
      ({ lastMsgTime := List.getLast? (frames.map Prod.fst),
         sched := [],
         handled := frames.map Prod.snd,
         eff := { sink := (frames.map (fun p => (handler p.2).1.sink)).flatten,
                  out := (frames.map (fun p => (handler p.2).1.out)).flatten },
         tsTrace := frames.map Prod.fst }, Option.none)) ∧
    List.Chain' (fun a b => a ≤ b)
      ((handleMessages connect handler initialLoopState (textMsgs frames)).1.tsTrace) ∧
    (∀ (st : LoopState) (now : Nat) (msg : WSMsg),
      (handleMessagesStep connect handler st now msg).1.tsTrace = st.tsTrace ++ [now] ∧
      (handleMessagesStep connect handler st now msg).1.lastMsgTime = Option.some now) := by
  have hchar := handleMessages_text connect handler frames initialLoopState hok
  refine ⟨?_, ?_, fun st now msg => handleMessagesStep_timestamp connect handler st now msg⟩
  · rw [hchar]
    simp [initialLoopState]
  · rw [hchar]
    simpa [initialLoopState] using hclock

/-- C2 witness: two data frames at times 5 and 7 through the user
stream handler: both documents reach the sink in order, the write trace
is the receive times, no exception; and a CLOSED frame at time 3 still
gets its timestamp written before anything else happens. -/
theorem c2_witness :
    (handleMessages marketConnect userHandleEvent initialLoopState
        (textMsgs [(5, Json.num 1), (7, Json.num 2)])).1.eff.sink
      = [Json.num 1, Json.num 2] ∧
    (handleMessages marketConnect userHandleEvent initialLoopState
        (textMsgs [(5, Json.num 1), (7, Json.num 2)])).1.tsTrace = [5, 7] ∧
    (handleMessages marketConnect userHandleEvent initialLoopState
        (textMsgs [(5, Json.num 1), (7, Json.num 2)])).2 = Option.none ∧
    (handleMessagesStep marketConnect userHandleEvent initialLoopState 3
        { type := WSMsgType.CLOSED, data := Option.none }).1.lastMsgTime
      = Option.some 3 := by
  have h := c2_receive_loop marketConnect userHandleEvent
      [(5, Json.num 1), (7, Json.num 2)] (by decide)
      (by simp [List.chain'_cons])
  refine ⟨?_, ?_, ?_,
    (h.2.2 initialLoopState 3 { type := WSMsgType.CLOSED, data := Option.none }).2⟩
  · rw [h.1]
    rfl
  · rw [h.1]
    rfl
  · rw [h.1]

/-- C7: a CLOSED, CLOSE or ERROR frame makes the iteration log the
condition and then evaluate asyncio.ensure_future(self.connect());
since connect() returns None (its start() coroutine is discarded),
ensure_future raises TypeError: the task list is unchanged, nothing
reaches json.loads or _handle_event or the dispatch sink, and the
TypeError ends the receive loop.  The claimed fire-and-forget reconnect
and the claimed continuation to the decoder do not happen; this
supports the code_bug verdict. -/
theorem c7_closed_error_frames :
    ∀ (handler : Json → Effects × Option PyErr) (st : LoopState) (t : Nat),
      handleMessagesStep marketConnect handler st t
          { type := WSMsgType.CLOSED, data := Option.none } =
        ({ st with lastMsgTime := Option.some t,
                   tsTrace := st.tsTrace ++ [t],
                   eff := { sink := st.eff.sink,
                            out := st.eff.out ++ [OutMsg.logClosedError] } },
         Option.some PyErr.typeError) ∧
      handleMessagesStep marketConnect handler st t
          { type := WSMsgType.ERROR, data := Option.none } =
        ({ st with lastMsgTime := Option.some t,
                   tsTrace := st.tsTrace ++ [t],
                   eff := { sink := st.eff.sink,
                            out := st.eff.out ++ [OutMsg.logWsError] } },
         Option.some PyErr.typeError) ∧
      handleMessagesStep userConnect handler st t
          { type := WSMsgType.CLOSE, data := Option.none } =
        ({ st with lastMsgTime := Option.some t,
                   tsTrace := st.tsTrace ++ [t],
                   eff := { sink := st.eff.sink,
                            out := st.eff.out ++ [OutMsg.logClosedError] } },
         Option.some PyErr.typeError) := by
  intro handler st t
  refine ⟨?_, ?_, ?_⟩ <;> rfl
